import Mathlib

/-!
Verification development for the MCQ generator application.

The embedding covers:
* `services/geminiService.ts` — `getAiInstance`, `generateMcqsFromText`,
  `translateText`, with the network/model outcome supplied as an explicit
  parameter (the response the hosted model would deliver, or the error the
  transport layer would throw);
* the application component — session state, `handleFileChange`,
  `handleSubmit`, `handleTryAgain`, `handleAnswerSelect`, `handleSubmitTest`,
  `calculateScore`, the mode-toggle buttons on the results screen, and a step
  relation over the user actions the rendered screens make available;
* `components/McqCard.tsx` — `getOptionClasses`, the `showAnswer` flag, and
  `handleTranslate` over an explicit completion order of the request batch.
-/

namespace Mcq

/-- An MCQ as typed in the application: question, options, answer. -/
structure MCQ where
  question : String
  options : List String
  answer : String
deriving DecidableEq

/-- A raw record from the parsed model response.  Each JSON field may be
absent (`none`).  Present fields are strings / string arrays, as constrained
by the response schema sent with the request. -/
structure RawMcq where
  question : Option String
  options : Option (List String)
  answer : Option String
deriving DecidableEq

/-- JavaScript truthiness of a possibly-absent string: an absent field and
the empty string are falsy, every other string is truthy. -/
def strTruthy : Option String → Bool
  | none => false
  | some s => !(s == "")

/-- The validation filter of `generateMcqsFromText`:
`mcq.question && Array.isArray(mcq.options) && mcq.options.length > 0 &&
 mcq.answer && mcq.options.includes(mcq.answer)`. -/
def validMcq (r : RawMcq) : Bool :=
  strTruthy r.question &&
  (match r.options with
   | some os => decide (0 < os.length)
   | none => false) &&
  strTruthy r.answer &&
  (match r.options, r.answer with
   | some os, some a => os.contains a
   | _, _ => false)

/-- A thrown JavaScript error, identified by its message. -/
structure JsError where
  message : String
deriving DecidableEq

/-- The message of the error thrown by `getAiInstance` when the API key is
missing. -/
def credentialMessage : String :=
  "Google Gemini API Key is missing. Please set it as an environment variable named \x27API_KEY\x27 in your deployment settings. For example, on Netlify, go to Site settings > Build & deploy > Environment, and add a new variable."

/-- The stable message of the generic error thrown by `generateMcqsFromText`
for any wrapped failure. -/
def genericGenerationMessage : String :=
  "Failed to generate MCQs from the provided text."

/-- The message thrown when the parsed response is not an array. -/
def schemaMessage : String :=
  "API did not return a valid array of MCQs."

/-- Whether `pat` occurs as a contiguous run inside `l`
(JavaScript `String.prototype.includes` over the character list). -/
def containsRun (pat : List Char) : List Char → Bool
  | [] => pat.isEmpty
  | c :: cs => List.isPrefixOf pat (c :: cs) || containsRun pat cs

/-- JavaScript `s.includes(pat)`. -/
def strIncludes (s pat : String) : Bool :=
  containsRun pat.toList s.toList

/-- Whitespace recognised by `String.prototype.trim` (the strings handled
here are ASCII-range; the full JS definition also covers Unicode space
separators). -/
def isJsSpace (c : Char) : Bool :=
  c = ' ' || c = '\t' || c = '\n' || c = '\r' || c = '\x0B' || c = '\x0C'

/-- JavaScript `s.trim()`: drop whitespace from both ends. -/
def jsTrim (s : String) : String :=
  ⟨((s.toList.dropWhile isJsSpace).reverse.dropWhile isJsSpace).reverse⟩

/-- The catch-clause test shared by both service functions:
`error.message.includes("API key") || error.message.includes("API Key")`. -/
def mentionsApiKey (m : String) : Bool :=
  strIncludes m "API key" || strIncludes m "API Key"

/-- Source `getAiInstance`: reads `process.env.API_KEY` (modelled as the
`apiKey` argument: `none` when unset) and throws the credential error when
it is falsy (absent or empty). -/
def getAiInstance : Option String → Except JsError Unit
  | none => .error ⟨credentialMessage⟩
  | some k => if k = "" then .error ⟨credentialMessage⟩ else .ok ()

/-- The outcome of the generate-content call followed by `JSON.parse` of its
text: the parsed value is an array of records, the parsed value is not an
array, or some error (network, quota, malformed response text) is thrown
with the given message. -/
inductive GenResponse where
  | parsedArray (records : List RawMcq)
  | parsedNonArray
  | threw (message : String)
deriving DecidableEq

/-- The try-block of `generateMcqsFromText`: obtain the AI instance, perform
the call and parse (both summarised by `resp`), reject a non-array top-level
value, and filter the records. -/
def tryGenerate (apiKey : Option String) (resp : GenResponse) :
    Except JsError (List RawMcq) :=
  match getAiInstance apiKey with
  | .error e => .error e
  | .ok _ =>
    match resp with
    | .threw m => .error ⟨m⟩
    | .parsedNonArray => .error ⟨schemaMessage⟩
    | .parsedArray records => .ok (records.filter validMcq)

/-- The catch-clause of `generateMcqsFromText`: re-throw an error whose
message mentions the API key, wrap everything else into the generic error. -/
def catchGenerate : Except JsError (List RawMcq) → Except JsError (List RawMcq)
  | .ok v => .ok v
  | .error e =>
    if mentionsApiKey e.message then .error e
    else .error ⟨genericGenerationMessage⟩

/-- Source `generateMcqsFromText text numQuestions`, with the call outcome explicit.
The prompt string (built from `text` and `numQuestions`) does not affect the
result processing, so it is not carried. -/
def generateMcqsFromText (apiKey : Option String) (resp : GenResponse) :
    Except JsError (List RawMcq) :=
  catchGenerate (tryGenerate apiKey resp)

/-- The outcome of the free-form translation call: the response text, or a
thrown error with the given message. -/
inductive TransResponse where
  | ok (text : String)
  | threw (message : String)
deriving DecidableEq

/-- The result of `translateText` together with whether a network call was
issued. -/
structure TransResult where
  result : Except JsError String
  networkCalled : Bool

/-- The catch-clause of `translateText`: re-throw an error whose message
mentions the API key, otherwise return the sentinel string. -/
def catchTranslate (e : JsError) : Except JsError String :=
  if mentionsApiKey e.message then .error e else .ok "Translation failed."

/-- Source `translateText textToTranslate`: empty input short-circuits to `""`
without a call; a missing credential throws inside the try-block and is
re-thrown by the catch-clause; otherwise the call is issued and its thrown
errors are downgraded to the sentinel. -/
def translateText (apiKey : Option String) (textToTranslate : String)
    (resp : TransResponse) : TransResult :=
  if textToTranslate = "" then { result := .ok "", networkCalled := false }
  else
    match getAiInstance apiKey with
    | .error e => { result := catchTranslate e, networkCalled := false }
    | .ok _ =>
      match resp with
      | .ok t => { result := .ok (jsTrim t), networkCalled := true }
      | .threw m => { result := catchTranslate ⟨m⟩, networkCalled := true }

/-! ### Application component: session state and handlers -/

/-- Source `type AppState`, with values welcome, loading, results. -/
inductive AppState where
  | welcome
  | loading
  | results
deriving DecidableEq

/-- Source `type ResultsMode`, with values study and test. -/
inductive ResultsMode where
  | study
  | test
deriving DecidableEq, BEq

/-- A selected file: its name and MIME type. -/
structure PdfFile where
  name : String
  mime : String
deriving DecidableEq

/-- The React state of the `App` component.  `testAnswers` models the
`Record<number, string>`: a lookup returning `none` where JavaScript yields
`undefined`. -/
structure SessionState where
  appState : AppState
  resultsMode : ResultsMode
  pdfFile : Option PdfFile
  numQuestions : Nat
  mcqs : List MCQ
  error : Option String
  testAnswers : Nat → Option String
  showTestScore : Bool

/-- The initial `useState` values. -/
def initialState : SessionState :=
  { appState := .welcome
    resultsMode := .study
    pdfFile := none
    numQuestions := 5
    mcqs := []
    error := none
    testAnswers := fun _ => none
    showTestScore := false }

/-- Source `handleFileChange`: accept a file of MIME type `application/pdf`, clear
the error; otherwise clear the file and set the file-type error. -/
def handleFileChange (s : SessionState) (file : Option PdfFile) : SessionState :=
  match file with
  | some f =>
    if f.mime = "application/pdf" then { s with pdfFile := some f, error := none }
    else { s with pdfFile := none, error := some "Please select a valid PDF file." }
  | none => { s with pdfFile := none, error := some "Please select a valid PDF file." }

/-- The outcome of `extractTextFromPdf`: the concatenated text, or a thrown
error with the given message. -/
inductive ExtractResult where
  | ok (text : String)
  | err (message : String)
deriving DecidableEq

/-- The outcome of the `generateMcqsFromText` call made by `handleSubmit`:
the generated MCQs, or a thrown error with the given message. -/
inductive GenCallResult where
  | ok (mcqs : List MCQ)
  | err (message : String)
deriving DecidableEq

/-- The session state after `handleSubmit`, plus whether the AI gateway
(`generateMcqsFromText`) was invoked during the run. -/
structure SubmitOutcome where
  state : SessionState
  gatewayCalled : Bool

/-- The message thrown when the extracted text is under the threshold. -/
def shortTextMessage : String :=
  "Text extracted from PDF is too short. Please use a more content-rich document."

/-- The catch-clause message of `handleSubmit`:
the text "An error occurred: " followed by the caught message, or by "Failed to generate questions." when that message is empty. -/
def submitErrorMessage (m : String) : String :=
  "An error occurred: " ++ (if m = "" then "Failed to generate questions." else m)

/-- Source `handleSubmit`: guard on a selected file, move to `loading` while
clearing error, quiz, score flag and answers, extract the text, enforce the
100-character threshold, call the gateway, and either show the results in
study mode or return to `welcome` with the caught message. -/
def handleSubmit (s : SessionState) (extract : ExtractResult)
    (gen : GenCallResult) : SubmitOutcome :=
  match s.pdfFile with
  | none =>
    { state := { s with error := some "Please select a PDF file first." }
      gatewayCalled := false }
  | some _ =>
    let s1 : SessionState :=
      { s with appState := .loading, error := none, mcqs := []
               showTestScore := false, testAnswers := fun _ => none }
    match extract with
    | .err m =>
      { state := { s1 with error := some (submitErrorMessage m), appState := .welcome }
        gatewayCalled := false }
    | .ok text =>
      if (jsTrim text).length < 100 then
        { state := { s1 with error := some (submitErrorMessage shortTextMessage)
                             appState := .welcome }
          gatewayCalled := false }
      else
        match gen with
        | .ok mcqs =>
          { state := { s1 with mcqs := mcqs, appState := .results, resultsMode := .study }
            gatewayCalled := true }
        | .err m =>
          { state := { s1 with error := some (submitErrorMessage m), appState := .welcome }
            gatewayCalled := true }

/-- Source `handleTryAgain` ("Start Over"): back to `welcome`, clear the file, the
quiz and the error. -/
def handleTryAgain (s : SessionState) : SessionState :=
  { s with appState := .welcome, pdfFile := none, mcqs := [], error := none }

/-- Source `handleAnswerSelect`: `{ ...prev, [questionIndex]: answer }`. -/
def handleAnswerSelect (s : SessionState) (questionIndex : Nat) (answer : String) :
    SessionState :=
  { s with testAnswers := fun j => if j = questionIndex then some answer
                                   else s.testAnswers j }

/-- Source `handleSubmitTest`: `setShowTestScore(true)`. -/
def handleSubmitTest (s : SessionState) : SessionState :=
  { s with showTestScore := true }

/-- The "Study Mode" button: set the mode to study and clear the score flag. -/
def clickStudyMode (s : SessionState) : SessionState :=
  { s with resultsMode := .study, showTestScore := false }

/-- The "Test Mode" button: set the mode to test. -/
def clickTestMode (s : SessionState) : SessionState :=
  { s with resultsMode := .test }

/-- Source `calculateScore`: `mcqs.reduce((score, mcq, index) =>
score + (testAnswers[index] === mcq.answer ? 1 : 0), 0)`. -/
def calculateScore (mcqs : List MCQ) (testAnswers : Nat → Option String) : Nat :=
  mcqs.enum.foldl
    (fun score p => score + (if testAnswers p.1 = some p.2.answer then 1 else 0)) 0

/-- The count of question indices whose stored user answer equals that
correct answer of that question (the description of the score in the specification). -/
def countCorrect (mcqs : List MCQ) (testAnswers : Nat → Option String) : Nat :=
  (mcqs.enum.filter (fun p => decide (testAnswers p.1 = some p.2.answer))).length

/-! ### McqCard -/

/-- A per-card translation result. -/
structure CardTranslation where
  question : String
  options : List String
deriving DecidableEq

/-- The `showAnswer` prop passed to each card:
true when the mode is study or the score flag is set. -/
def showAnswerFlag (mode : ResultsMode) (submitted : Bool) : Bool :=
  (mode == ResultsMode.study) || submitted

/-- The guard `isTestModeActive`, true when the mode is test and answers are hidden; option buttons carry
`disabled={!isTestModeActive}`, so a button is selectable exactly when this
is true. -/
def isTestModeActive (mode : ResultsMode) (showAnswer : Bool) : Bool :=
  (mode == ResultsMode.test) && !showAnswer

/-- Source `getOptionClasses`, returning the class string chosen for one option. -/
def getOptionClasses (mcq : MCQ) (userAnswer : Option String) (showAnswer : Bool)
    (opt : String) : String :=
  let isSelected := userAnswer == some opt
  if showAnswer then
    if opt == mcq.answer then
      "bg-green-100 border-green-500 text-green-800 font-semibold"
    else if isSelected && !(opt == mcq.answer) then
      "bg-red-100 border-red-500 text-red-800"
    else
      "border-slate-300 text-slate-500 bg-slate-50"
  else if isSelected then
    "bg-blue-100 border-blue-500"
  else
    "border-slate-300 hover:bg-slate-200 hover:border-slate-400"

/-- The "Correct Answer:" block is rendered when `showAnswer` is true and the mode is study. -/
def correctAnswerBlockShown (mode : ResultsMode) (showAnswer : Bool) : Bool :=
  showAnswer && (mode == ResultsMode.study)

/-! ### Translation batch (`handleTranslate`)

The batch of calls issued by `handleTranslate` is
`[translateText(mcq.question), ...mcq.options.map(opt => translateText(opt))]`.
The eventual value of each request is given by an oracle `f`; the order in which
the individual calls complete is an explicit list of request indices. -/

/-- The stream of completions: for each index of `order`, the pair of the
request index and the value of that request. -/
def completions (reqs : List String) (f : String → String) (order : List Nat) :
    List (Nat × String) :=
  order.map (fun j => (j, f (reqs.getD j "")))

/-- Modelled from the spec: `Promise.all` — absent from `src/`, it is the
runtime batching primitive — "preserves input order in its output": the
awaited batch yields, at position `i`, the value of request `i`, no matter
in which order the completions arrived. -/
def promiseAll (reqs : List String) (f : String → String) (order : List Nat) :
    List String :=
  (List.range reqs.length).map
    (fun i => ((completions reqs f order).lookup i).getD "")

/-- The batch issue and destructuring in `handleTranslate`:
`const [tQuestion, ...tOptions] = await Promise.all([...])`. -/
def handleTranslate (mcq : MCQ) (f : String → String) (order : List Nat) :
    CardTranslation :=
  let results := promiseAll (mcq.question :: mcq.options) f order
  { question := results.headD "", options := results.tail }

/-! ### User-action step relation

One constructor per user action, guarded by the conditions under which the
rendered screen makes the action available: the upload form exists only on
the welcome screen; the header buttons only on the results screen; option
buttons are enabled only while `isTestModeActive` (test mode, answers not
shown, i.e. `showTestScore = false`); the "Submit Test" button is rendered
only when the mode is test, the score flag is clear and the quiz is non-empty. -/
inductive Step : SessionState → SessionState → Prop where
  | fileChange (s : SessionState) (f : Option PdfFile)
      (hw : s.appState = .welcome) :
      Step s (handleFileChange s f)
  | submit (s : SessionState) (e : ExtractResult) (g : GenCallResult)
      (hw : s.appState = .welcome) :
      Step s (handleSubmit s e g).state
  | tryAgain (s : SessionState) (hr : s.appState = .results) :
      Step s (handleTryAgain s)
  | studyMode (s : SessionState) (hr : s.appState = .results) :
      Step s (clickStudyMode s)
  | testMode (s : SessionState) (hr : s.appState = .results) :
      Step s (clickTestMode s)
  | answerSelect (s : SessionState) (i : Nat) (a : String)
      (hr : s.appState = .results) (hm : s.resultsMode = .test)
      (hn : s.showTestScore = false) :
      Step s (handleAnswerSelect s i a)
  | submitTest (s : SessionState)
      (hr : s.appState = .results) (hm : s.resultsMode = .test)
      (hn : s.showTestScore = false) (hq : s.mcqs ≠ []) :
      Step s (handleSubmitTest s)

/-- States reachable from the initial state through user actions. -/
inductive Reachable : SessionState → Prop where
  | init : Reachable initialState
  | step {s t : SessionState} : Reachable s → Step s t → Reachable t

/-! ### Statement-side predicates and concrete fixtures -/

/-- The validity property as the specification words it: the question is
present and non-empty, the options field is a present, non-empty array, the
answer is present, and the answer equals (by value) one element of the
options. -/
def claimValidMcq (r : RawMcq) : Prop :=
  ∃ q os a, r.question = some q ∧ q ≠ "" ∧ r.options = some os ∧ os ≠ [] ∧
    r.answer = some a ∧ a ∈ os

/-- A record passing every check of the filter. -/
def goodRaw : RawMcq :=
  { question := some "What is 2 + 2?"
    options := some ["3", "4", "5", "6"]
    answer := some "4" }

/-- A record whose answer matches no option; the filter must drop it. -/
def badRaw : RawMcq :=
  { question := some "Pick one"
    options := some ["x", "y"]
    answer := some "z" }

/-- A results-screen state holding one recorded answer. -/
def answeredResultsState : SessionState :=
  { appState := .results
    resultsMode := .test
    pdfFile := none
    numQuestions := 5
    mcqs := [⟨"What is 2 + 2?", ["3", "4", "5", "6"], "4"⟩]
    error := none
    testAnswers := fun j => if j = 0 then some "4" else none
    showTestScore := false }

/-- The same state with a file selected (for the submit conjuncts). -/
def answeredStateWithFile : SessionState :=
  { answeredResultsState with pdfFile := some ⟨"doc.pdf", "application/pdf"⟩ }

/-- A PDF file as accepted by `handleFileChange`. -/
def wFile : PdfFile := ⟨"doc.pdf", "application/pdf"⟩

/-- An extracted text comfortably above the 100-character threshold. -/
def wLongText : String := String.mk (List.replicate 150 'a')

/-- A concrete generated MCQ. -/
def wMcq : MCQ := ⟨"What is 2 + 2?", ["3", "4", "5", "6"], "4"⟩

/-- Welcome state after picking the file. -/
def ws1 : SessionState := handleFileChange initialState (some wFile)

/-- Results state after a successful generation run. -/
def ws2 : SessionState := (handleSubmit ws1 (.ok wLongText) (.ok [wMcq])).state

/-- After switching to test mode. -/
def ws3 : SessionState := clickTestMode ws2

/-- After pressing "Submit Test". -/
def ws4 : SessionState := handleSubmitTest ws3

/-! ### Helper lemmas -/

/-- A record kept by the filter satisfies the validity property as worded in
the specification. -/
lemma validMcq_claimValid (r : RawMcq) (h : validMcq r = true) : claimValidMcq r := by
  rcases r with ⟨q, os, a⟩
  rcases q with _ | q <;> rcases os with _ | os <;> rcases a with _ | a <;>
    simp [validMcq, strTruthy] at h
  obtain ⟨⟨⟨hq, hos⟩, ha⟩, hmem⟩ := h
  refine ⟨q, os, a, rfl, hq, rfl, ?_, rfl, ?_⟩
  · exact List.ne_nil_of_length_pos hos
  · simpa [List.contains] using hmem

/-- Folding an indicator sum equals the length of the filtered list. -/
lemma foldl_indicator_count {α : Type} (p : α → Prop) [DecidablePred p] :
    ∀ (l : List α) (a : Nat),
      l.foldl (fun s x => s + if p x then 1 else 0) a
        = a + (l.filter (fun x => decide (p x))).length := by
  intro l
  induction l with
  | nil => intro a; simp
  | cons x xs ih =>
    intro a
    by_cases hp : p x
    · simp [List.filter_cons, hp, ih]
      omega
    · simp [List.filter_cons, hp, ih]

/-- In a keyed completion list, looking a key up yields the value of that
key, whatever the order of the completions. -/
lemma lookup_keyed_map (g : Nat → String) :
    ∀ (order : List Nat) (i : Nat), i ∈ order →
      (order.map (fun j => (j, g j))).lookup i = some (g i) := by
  intro order
  induction order with
  | nil => intro i hi; cases hi
  | cons j rest ih =>
    intro i hi
    cases hi with
    | head => simp [List.lookup]
    | tail _ hmem =>
      by_cases hij : i = j
      · subst hij; simp [List.lookup]
      · have hb : (i == j) = false := by simp [hij]
        simp only [List.lookup, hb]
        exact ih i hmem

/-- When every request index completes, the awaited batch returns the
requests mapped through the oracle, in submission order. -/
lemma promiseAll_eq_map (reqs : List String) (f : String → String)
    (order : List Nat) (hall : ∀ i, i < reqs.length → i ∈ order) :
    promiseAll reqs f order = reqs.map f := by
  apply List.ext_get
  · simp [promiseAll]
  · intro n h1 h2
    have hn : n < reqs.length := by simpa [promiseAll] using h1
    have hl := lookup_keyed_map (fun j => f (reqs.getD j "")) order n (hall n hn)
    simp only [promiseAll, completions, List.get_eq_getElem, List.getElem_map,
      List.getElem_range]
    rw [hl]
    simp [List.getD, List.getElem?_eq_getElem hn]

/-- One user step preserves the submitted-flag invariant. -/
lemma step_preserves_submitted {s t : SessionState} (hst : Step s t)
    (ih : s.showTestScore = true → s.resultsMode = .test) :
    t.showTestScore = true → t.resultsMode = .test := by
  cases hst with
  | fileChange f hw =>
    rcases f with _ | f
    · exact ih
    · by_cases hm : f.mime = "application/pdf" <;>
        · simp only [handleFileChange, hm, if_true, if_false, reduceIte]
          exact ih
  | submit e g hw =>
    rcases hfile : s.pdfFile with _ | f
    · simpa [handleSubmit, hfile] using ih
    · rcases e with text | m
      · by_cases hlen : (jsTrim text).length < 100
        · simp [handleSubmit, hfile, hlen]
        · rcases g with mcqs | m <;> simp [handleSubmit, hfile, hlen]
      · simp [handleSubmit, hfile]
  | tryAgain hr => exact ih
  | studyMode hr => intro h; simp [clickStudyMode] at h
  | testMode hr => intro _; rfl
  | answerSelect i a hr hm hn => exact ih
  | submitTest hr hm hn hq => intro _; exact hm

/-- The submitted-flag invariant holds in every reachable state. -/
lemma reachable_submitted_test {s : SessionState} (h : Reachable s) :
    s.showTestScore = true → s.resultsMode = .test := by
  induction h with
  | init => intro h; simp [initialState] at h
  | step _ hst ih => exact step_preserves_submitted hst ih

/-! ### Claim theorems -/

/-- C1: every MCQ in the sequence returned by `generateMcqsFromText`
satisfies the validation filter — the question is present and non-empty, the
options form a non-empty array, the answer is present and equals one element
of the options by value — and any record of the model response violating any
of these checks does not appear in the returned sequence. -/
theorem c1_generate_filter_invariant (key : Option String) (resp : GenResponse)
    (result : List RawMcq) (h : generateMcqsFromText key resp = .ok result) :
    (∀ r ∈ result, claimValidMcq r) ∧
    (∀ records, resp = .parsedArray records →
      ∀ r ∈ records, ¬ claimValidMcq r → r ∉ result) := by
  have hok : tryGenerate key resp = .ok result := by
    unfold generateMcqsFromText at h
    cases htry : tryGenerate key resp with
    | ok v =>
      rw [htry] at h
      simp only [catchGenerate] at h
      exact h
    | error e =>
      rw [htry] at h
      simp only [catchGenerate] at h
      split at h <;> simp at h
  unfold tryGenerate at hok
  cases hai : getAiInstance key with
  | error e => rw [hai] at hok; simp at hok
  | ok u =>
    rw [hai] at hok
    cases resp with
    | threw m => simp at hok
    | parsedNonArray => simp at hok
    | parsedArray records =>
      have hres : records.filter validMcq = result := by simpa using hok
      subst hres
      refine ⟨?_, ?_⟩
      · intro r hr
        exact validMcq_claimValid r (List.mem_filter.mp hr).2
      · intro records2 heq r _ hnot hmem
        exact hnot (validMcq_claimValid r (List.mem_filter.mp hmem).2)

/-- Concrete run of the C1 theorem: a batch of one valid and one invalid
record yields exactly the valid one. -/
theorem c1_witness :
    (∀ r ∈ [goodRaw], claimValidMcq r) ∧
    (∀ records, GenResponse.parsedArray [goodRaw, badRaw] = .parsedArray records →
      ∀ r ∈ records, ¬ claimValidMcq r → r ∉ [goodRaw]) :=
  c1_generate_filter_invariant (some "key") (.parsedArray [goodRaw, badRaw])
    [goodRaw] rfl

/-- C2: the computed score equals the count of question indices whose stored
user answer equals the correct answer of that question; it is 0 on an empty
answer set (whatever the quiz), and equals the quiz length when every
question has a stored answer equal to the answer of its MCQ. -/
theorem c2_score_correct (mcqs : List MCQ) (ans : Nat → Option String) :
    calculateScore mcqs ans = countCorrect mcqs ans ∧
    calculateScore mcqs (fun _ => none) = 0 ∧
    ((∀ i (hi : i < mcqs.length), ans i = some (mcqs[i].answer)) →
      calculateScore mcqs ans = mcqs.length) := by
  have key : ∀ (a : Nat → Option String), calculateScore mcqs a = countCorrect mcqs a := by
    intro a
    unfold calculateScore countCorrect
    simpa using foldl_indicator_count (fun p => a p.1 = some p.2.answer) mcqs.enum 0
  refine ⟨key ans, ?_, ?_⟩
  · rw [key]
    unfold countCorrect
    have hnil : (mcqs.enum.filter
        (fun p => decide ((fun _ => (none : Option String)) p.1 = some p.2.answer))) = [] := by
      apply List.filter_eq_nil_iff.mpr
      intro p _
      simp
    rw [hnil]
    rfl
  · intro hall
    rw [key]
    unfold countCorrect
    have hself : (mcqs.enum.filter (fun p => decide (ans p.1 = some p.2.answer)))
        = mcqs.enum := by
      apply List.filter_eq_self.mpr
      intro p hp
      have h2 : ∀ x ∈ mcqs.enum, ans x.1 = some x.2.answer :=
        List.forall_mem_enum.mpr (fun i hi => hall i hi)
      simpa using h2 p hp
    rw [hself, List.enum_length]

/-- Concrete run of the C2 theorem: a one-question quiz with the correct
answer stored scores 1, matching the count. -/
theorem c2_witness :
    calculateScore [wMcq] (fun _ => some "4") = countCorrect [wMcq] (fun _ => some "4") ∧
    calculateScore [wMcq] (fun _ => some "4") = 1 := by
  refine ⟨(c2_score_correct [wMcq] (fun _ => some "4")).1, ?_⟩
  have := (c2_score_correct [wMcq] (fun _ => some "4")).2.2
  refine this ?_
  intro i hi
  have h0 : i = 0 := by simpa [Nat.lt_one_iff] using hi
  subst h0
  rfl

/-- C3 counterexample: starting over from a results state with a recorded
answer leaves that AnswerSet entry in place (the claim says the AnswerSet is
discarded entirely), even though the session is back on the welcome
screen. -/
theorem c3_counterexample :
    (handleTryAgain answeredResultsState).testAnswers 0 = some "4" ∧
    (handleTryAgain answeredResultsState).appState = .welcome ∧
    (handleTryAgain answeredResultsState).mcqs = [] := ⟨rfl, rfl, rfl⟩

/-- C3 amended: the start-over action returns to the welcome screen with no
file selected, discards the quiz and clears the error, but leaves the
AnswerSet (and the submitted flag) untouched; the AnswerSet is instead
discarded at the start of the next generation run. -/
theorem c3_amended_try_again (s : SessionState) :
    (handleTryAgain s).appState = .welcome ∧
    (handleTryAgain s).pdfFile = none ∧
    (handleTryAgain s).mcqs = [] ∧
    (handleTryAgain s).error = none ∧
    (handleTryAgain s).testAnswers = s.testAnswers ∧
    (handleTryAgain s).showTestScore = s.showTestScore ∧
    (handleTryAgain s).resultsMode = s.resultsMode ∧
    (∀ (e : ExtractResult) (g : GenCallResult), s.pdfFile.isSome →
      ((handleSubmit s e g).state).testAnswers = fun _ => none) := by
  refine ⟨rfl, rfl, rfl, rfl, rfl, rfl, rfl, ?_⟩
  intro e g hf
  rcases hfile : s.pdfFile with _ | f
  · rw [hfile] at hf; simp at hf
  · rcases e with text | m
    · by_cases hlen : (jsTrim text).length < 100
      · simp [handleSubmit, hfile, hlen]
      · rcases g with mcqs | m <;> simp [handleSubmit, hfile, hlen]
    · simp [handleSubmit, hfile]

/-- Concrete run of the amended C3 theorem, including the clearing of the
answers by the next generation run. -/
theorem c3_witness :
    (handleTryAgain answeredResultsState).appState = .welcome ∧
    ((handleSubmit answeredStateWithFile (.ok wLongText) (.ok [wMcq])).state).testAnswers
      = fun _ => none :=
  ⟨(c3_amended_try_again answeredResultsState).1,
   (c3_amended_try_again answeredStateWithFile).2.2.2.2.2.2.2
     (.ok wLongText) (.ok [wMcq]) rfl⟩

/-- C4: the correct answer and the correctness coloring are shown exactly
when the mode is study, or the mode is test and the test is submitted; in
the remaining case (un-submitted test) the correct option gets no revealing
class and the option buttons are enabled, while in the visible case the
buttons are disabled. -/
theorem c4_answer_visibility (mode : ResultsMode) (submitted : Bool) (mcq : MCQ)
    (ua : Option String) (opt : String) :
    (showAnswerFlag mode submitted
      = ((mode == ResultsMode.study) || ((mode == ResultsMode.test) && submitted))) ∧
    (mode = .test → submitted = false →
      showAnswerFlag mode submitted = false ∧
      isTestModeActive mode (showAnswerFlag mode submitted) = true ∧
      getOptionClasses mcq ua false opt
        ≠ "bg-green-100 border-green-500 text-green-800 font-semibold" ∧
      getOptionClasses mcq ua false opt ≠ "bg-red-100 border-red-500 text-red-800" ∧
      correctAnswerBlockShown mode false = false) ∧
    (showAnswerFlag mode submitted = true →
      isTestModeActive mode (showAnswerFlag mode submitted) = false ∧
      getOptionClasses mcq ua true mcq.answer
        = "bg-green-100 border-green-500 text-green-800 font-semibold") := by
  refine ⟨?_, ?_, ?_⟩
  · cases mode <;> cases submitted <;> rfl
  · intro hmode hsub
    subst hmode; subst hsub
    refine ⟨rfl, rfl, ?_, ?_, rfl⟩ <;>
      · unfold getOptionClasses
        by_cases hsel : (ua == some opt) = true <;> simp [hsel]
  · intro hshow
    constructor
    · rw [hshow]; cases mode <;> rfl
    · unfold getOptionClasses
      simp

/-- Concrete run of the C4 theorem in both sub-cases: un-submitted test mode
conceals and enables, study mode reveals and disables. -/
theorem c4_witness :
    (showAnswerFlag .test false = false ∧
      isTestModeActive .test (showAnswerFlag .test false) = true ∧
      getOptionClasses wMcq none false "4"
        ≠ "bg-green-100 border-green-500 text-green-800 font-semibold" ∧
      getOptionClasses wMcq none false "4" ≠ "bg-red-100 border-red-500 text-red-800" ∧
      correctAnswerBlockShown .test false = false) ∧
    (isTestModeActive .study (showAnswerFlag .study false) = false ∧
      getOptionClasses wMcq none true wMcq.answer
        = "bg-green-100 border-green-500 text-green-800 font-semibold") :=
  ⟨(c4_answer_visibility .test false wMcq none "4").2.1 rfl rfl,
   (c4_answer_visibility .study false wMcq none "4").2.2 rfl⟩

/-- C5: when the extracted text trims to fewer than 100 characters, the
submit pipeline never calls the AI gateway, returns the session to the
welcome screen, and sets the content-too-short error message — whatever the
gateway would have answered. -/
theorem c5_short_text_no_gateway (s : SessionState) (text : String)
    (g : GenCallResult) (hf : s.pdfFile.isSome)
    (hshort : (jsTrim text).length < 100) :
    (handleSubmit s (.ok text) g).gatewayCalled = false ∧
    (handleSubmit s (.ok text) g).state.appState = .welcome ∧
    (handleSubmit s (.ok text) g).state.error
      = some (submitErrorMessage shortTextMessage) := by
  rcases hfile : s.pdfFile with _ | f
  · rw [hfile] at hf; simp at hf
  · simp [handleSubmit, hfile, hshort]

/-- Concrete run of the C5 theorem on a 5-character extraction. -/
theorem c5_witness :
    (handleSubmit answeredStateWithFile (.ok "tiny.") (.ok [wMcq])).gatewayCalled = false ∧
    (handleSubmit answeredStateWithFile (.ok "tiny.") (.ok [wMcq])).state.appState = .welcome ∧
    (handleSubmit answeredStateWithFile (.ok "tiny.") (.ok [wMcq])).state.error
      = some (submitErrorMessage shortTextMessage) :=
  c5_short_text_no_gateway answeredStateWithFile "tiny." (.ok [wMcq]) rfl (by decide)

/-- C6: translateText returns the empty string on empty input without a
network call; a thrown transport or model failure (one not mentioning the
credential) is downgraded to the sentinel string instead of being raised;
the missing-credential condition alone is raised to the caller, with no
network call issued. -/
theorem c6_translate_errors (key : Option String) (k input m : String)
    (resp resp2 : TransResponse)
    (hk : k ≠ "") (hinput : input ≠ "") (hm : mentionsApiKey m = false) :
    translateText key "" resp = ⟨.ok "", false⟩ ∧
    translateText (some k) input (.threw m) = ⟨.ok "Translation failed.", true⟩ ∧
    translateText none input resp2 = ⟨.error ⟨credentialMessage⟩, false⟩ := by
  refine ⟨rfl, ?_, ?_⟩
  · simp [translateText, hinput, getAiInstance, hk, catchTranslate, hm]
  · have hc : mentionsApiKey credentialMessage = true := by decide
    simp [translateText, hinput, getAiInstance, catchTranslate, hc]

/-- Concrete run of the C6 theorem. -/
theorem c6_witness :
    translateText (some "key") "" (.ok "x") = ⟨.ok "", false⟩ ∧
    translateText (some "key") "hello" (.threw "fetch failed")
      = ⟨.ok "Translation failed.", true⟩ ∧
    translateText none "hello" (.ok "x") = ⟨.error ⟨credentialMessage⟩, false⟩ :=
  c6_translate_errors (some "key") "key" "hello" "fetch failed" (.ok "x") (.ok "x")
    (by decide) (by decide) (by decide)

/-- C7 counterexample: a non-array top-level value produces exactly the same
error as a transport failure — the generic message — so the schema failure
is not distinguishable from the generic generation error, contrary to the
claim. -/
theorem c7_counterexample :
    generateMcqsFromText (some "key") .parsedNonArray
      = generateMcqsFromText (some "key") (.threw "fetch failed") ∧
    generateMcqsFromText (some "key") .parsedNonArray
      = .error ⟨genericGenerationMessage⟩ := ⟨rfl, rfl⟩

/-- C7 amended: a non-array response makes `generateMcqsFromText` fail, but
the schema failure is wrapped into the same generic error (with its stable
message) as other call failures, so only the missing-credential error —
surfaced verbatim — is distinguishable. -/
theorem c7_amended_error_taxonomy (k m : String) (resp : GenResponse)
    (hk : k ≠ "") (hm : mentionsApiKey m = false) :
    generateMcqsFromText (some k) .parsedNonArray
      = .error ⟨genericGenerationMessage⟩ ∧
    generateMcqsFromText (some k) (.threw m)
      = .error ⟨genericGenerationMessage⟩ ∧
    generateMcqsFromText none resp = .error ⟨credentialMessage⟩ ∧
    credentialMessage ≠ genericGenerationMessage := by
  have hs : mentionsApiKey schemaMessage = false := by decide
  have hc : mentionsApiKey credentialMessage = true := by decide
  refine ⟨?_, ?_, ?_, by decide⟩
  · simp [generateMcqsFromText, tryGenerate, getAiInstance, hk, catchGenerate, hs]
  · simp [generateMcqsFromText, tryGenerate, getAiInstance, hk, catchGenerate, hm]
  · simp [generateMcqsFromText, tryGenerate, getAiInstance, catchGenerate, hc]

/-- Concrete run of the amended C7 theorem. -/
theorem c7_witness :
    generateMcqsFromText (some "key") .parsedNonArray
      = .error ⟨genericGenerationMessage⟩ ∧
    generateMcqsFromText (some "key") (.threw "fetch failed")
      = .error ⟨genericGenerationMessage⟩ ∧
    generateMcqsFromText none (.parsedArray []) = .error ⟨credentialMessage⟩ ∧
    credentialMessage ≠ genericGenerationMessage :=
  c7_amended_error_taxonomy "key" "fetch failed" (.parsedArray [])
    (by decide) (by decide)

/-- C8: toggling the results mode from test to study and back to test leaves
every recorded AnswerSet entry — and the quiz — unchanged; each toggle
touches only the mode and the submitted flag. -/
theorem c8_mode_toggle_frame (s : SessionState) :
    (clickTestMode (clickStudyMode s)).testAnswers = s.testAnswers ∧
    (clickTestMode (clickStudyMode s)).mcqs = s.mcqs ∧
    (clickStudyMode s).testAnswers = s.testAnswers ∧
    (clickStudyMode s).mcqs = s.mcqs ∧
    (clickStudyMode s).pdfFile = s.pdfFile ∧
    (clickStudyMode s).appState = s.appState ∧
    (clickStudyMode s).error = s.error ∧
    (clickStudyMode s).numQuestions = s.numQuestions ∧
    (clickTestMode s).testAnswers = s.testAnswers ∧
    (clickTestMode s).mcqs = s.mcqs ∧
    (clickTestMode s).pdfFile = s.pdfFile ∧
    (clickTestMode s).appState = s.appState ∧
    (clickTestMode s).error = s.error ∧
    (clickTestMode s).numQuestions = s.numQuestions ∧
    (clickTestMode s).showTestScore = s.showTestScore :=
  ⟨rfl, rfl, rfl, rfl, rfl, rfl, rfl, rfl, rfl, rfl, rfl, rfl, rfl, rfl, rfl⟩

/-- C9: when the completion order is any permutation of the request indices,
the awaited translation batch attaches the question request to the
`question` field and, for each `i`, request `i + 1` (option `i`) to
`options[i]` — submission order, not completion order. -/
theorem c9_translation_order (mcq : MCQ) (f : String → String) (order : List Nat)
    (h : order.Perm (List.range (mcq.options.length + 1))) :
    (handleTranslate mcq f order).question = f mcq.question ∧
    (handleTranslate mcq f order).options = mcq.options.map f := by
  have hall : ∀ i, i < (mcq.question :: mcq.options).length → i ∈ order := by
    intro i hi
    have hr : i ∈ List.range (mcq.options.length + 1) := by
      simpa [List.mem_range] using hi
    exact h.mem_iff.mpr hr
  have hmap := promiseAll_eq_map (mcq.question :: mcq.options) f order hall
  constructor
  · simp [handleTranslate, hmap]
  · simp [handleTranslate, hmap]

/-- Concrete run of the C9 theorem with a scrambled completion order. -/
theorem c9_witness :
    (handleTranslate wMcq (fun s => String.append "ar:" s) [4, 2, 0, 1, 3]).question
      = String.append "ar:" wMcq.question ∧
    (handleTranslate wMcq (fun s => String.append "ar:" s) [4, 2, 0, 1, 3]).options
      = wMcq.options.map (fun s => String.append "ar:" s) :=
  c9_translation_order wMcq (fun s => String.append "ar:" s) [4, 2, 0, 1, 3]
    (by decide)

/-- C10: in every reachable state the submitted flag is true only while the
results mode is test; switching to study mode always clears the flag, and a
fresh generation run (submit with a file selected) always clears it too. -/
theorem c10_submitted_only_in_test (s : SessionState) (hs : Reachable s) :
    (s.showTestScore = true → s.resultsMode = .test) ∧
    (∀ t : SessionState, (clickStudyMode t).showTestScore = false) ∧
    (∀ (t : SessionState) (e : ExtractResult) (g : GenCallResult),
      t.pdfFile.isSome → ((handleSubmit t e g).state).showTestScore = false) := by
  refine ⟨reachable_submitted_test hs, fun t => rfl, ?_⟩
  intro t e g hf
  rcases hfile : t.pdfFile with _ | f
  · rw [hfile] at hf; simp at hf
  · rcases e with text | m
    · by_cases hlen : (jsTrim text).length < 100
      · simp [handleSubmit, hfile, hlen]
      · rcases g with mcqs | m <;> simp [handleSubmit, hfile, hlen]
    · simp [handleSubmit, hfile]

set_option maxRecDepth 4096 in
/-- Concrete run of the C10 theorem: along the path pick file → generate →
switch to test → submit test, the submitted state indeed has test mode, and
switching to study clears the flag. -/
theorem c10_witness :
    ws4.showTestScore = true ∧ ws4.resultsMode = .test ∧
    (clickStudyMode ws4).showTestScore = false := by
  have h1 : Reachable ws1 :=
    Reachable.init.step (Step.fileChange initialState (some wFile) rfl)
  have h2 : Reachable ws2 :=
    h1.step (Step.submit ws1 (.ok wLongText) (.ok [wMcq]) rfl)
  have h3 : Reachable ws3 := h2.step (Step.testMode ws2 (by decide))
  have h4 : Reachable ws4 :=
    h3.step (Step.submitTest ws3 (by decide) (by decide) (by decide) (by decide))
  exact ⟨rfl, (c10_submitted_only_in_test ws4 h4).1 rfl,
    (c10_submitted_only_in_test ws4 h4).2.1 ws4⟩

end Mcq
